import Mathlib

/-
Verification development for the LLDB-based execution tracer
(src/backend/src/python/lldb-tracer.py).  The tracer drives a native process
under debugger control and synthesizes a step-by-step execution trace.  The
definitions below are a shallow embedding of the tracer's pure logic: the
user-code filter, the step-deduplication signature check, the variable
snapshot extractor, the step-classification engine, and the session driver
loop.  External collaborators (the LLDB backend, the OS path functions and
the Python numeric parsers) are modelled as explicit data and function
parameters.
-/

namespace Tracer

/- ## String helpers (Python `in`, `endswith`, slicing) -/

/-- Does the pattern lead (occur at the front of) the character list? -/
def charsLead : List Char → List Char → Bool
  | [], _ => true
  | _ :: _, [] => false
  | a :: as, b :: bs => a = b && charsLead as bs

/-- Does the pattern occur anywhere inside the character list?  Models the
Python substring test `pat in s` for a non-empty pattern. -/
def charsHave (pat : List Char) : List Char → Bool
  | [] => charsLead pat []
  | b :: bs => charsLead pat (b :: bs) || charsHave pat bs

/-- Python `pat in s` (substring containment). -/
def strContains (s pat : String) : Bool :=
  charsHave pat.toList s.toList

/-- Python `s.endswith(suf)` (case-sensitive). -/
def strEndsWith (s suf : String) : Bool :=
  charsLead suf.toList.reverse s.toList.reverse

/-- Python `s.lower()` (over the ASCII range the tracer's patterns use). -/
def strLower (s : String) : String :=
  String.mk (s.toList.map Char.toLower)

/-- Python `s.split(sep)` for a non-empty separator, on character lists; the
first argument is recursion fuel, instantiated with the list length. -/
def splitCharsFuel (sep : List Char) : Nat → List Char → List (List Char)
  | _, [] => [[]]
  | 0, l => [l]
  | fuel + 1, c :: cs =>
    if charsLead sep (c :: cs) then
      [] :: splitCharsFuel sep fuel (List.drop sep.length (c :: cs))
    else
      match splitCharsFuel sep fuel cs with
      | [] => [[c]]
      | h :: t => (c :: h) :: t

/-- Python `s.split(sep)` for a non-empty separator. -/
def pySplit (s sep : String) : List String :=
  (splitCharsFuel sep.toList s.toList.length s.toList).map String.mk

/-- The double-quote character. -/
def dq : Char := Char.ofNat 34

/-- Python `s.startswith(CHR(34)) and s.endswith(CHR(34))`: is the textual value
wrapped in double quotes? -/
def quoted (s : String) : Bool :=
  match s.toList with
  | [] => false
  | c :: cs => c = dq && (c :: cs).getLast? = some dq

/-- Python slice `s[1:-1]`, used to strip the surrounding quotes. -/
def pySlice1m1 (s : String) : String :=
  String.mk ((s.toList.drop 1).dropLast)

/- ## Data model: backend variable handles and snapshot values -/

/-- LLDB type classification, as far as the tracer consumes it
(`eTypeClassClass` / `eTypeClassStruct` / anything else). -/
inductive TypeClass where
  | classType
  | structType
  | otherType
  deriving DecidableEq, Repr

/-- A backend variable handle (LLDB `SBValue`), restricted to the capabilities
the tracer actually uses: name, declared type name, textual value (Python
`None` when absent), load address (`none` models `LLDB_INVALID_ADDRESS`),
type classification, array-type test, and children. -/
inductive SBValue where
  | mk (name : String) (typeName : String) (valueStr : Option String)
      (loadAddress : Option Nat) (typeClass : TypeClass)
      (isArray : Bool) (children : List SBValue)

def SBValue.name : SBValue → String
  | .mk n _ _ _ _ _ _ => n

def SBValue.typeName : SBValue → String
  | .mk _ t _ _ _ _ _ => t

def SBValue.valueStr : SBValue → Option String
  | .mk _ _ v _ _ _ _ => v

def SBValue.loadAddress : SBValue → Option Nat
  | .mk _ _ _ a _ _ _ => a

def SBValue.typeClass : SBValue → TypeClass
  | .mk _ _ _ _ c _ _ => c

def SBValue.isArray : SBValue → Bool
  | .mk _ _ _ _ _ b _ => b

def SBValue.children : SBValue → List SBValue
  | .mk _ _ _ _ _ _ cs => cs

/-- The Python parse builtins the coercions lean on, as an explicit capability:
`intParse s` models `int(s)` (`none` when it raises), and `floatParse s`
models `float(s)` (`none` when it raises, `some d` when it succeeds and the
resulting float displays as `d`). -/
structure PyParse where
  intParse : String → Option Int
  floatParse : String → Option String

/-- The dynamically typed scalar value a snapshot can hold: Python
`None` / `int` / `float` / `bool` / `str`.  A float is carried by its display
form (see `PyParse.floatParse`). -/
inductive PyVal where
  | pynull
  | pyint (n : Int)
  | pyfloat (s : String)
  | pybool (b : Bool)
  | pystr (s : String)
  deriving DecidableEq, Repr

/-- One aggregate-member entry as built for a class/struct variable:
`{name, type, value, address}`. -/
structure MemberInfo where
  name : String
  type : String
  value : PyVal
  address : String
  deriving DecidableEq, Repr

/-- The `value` entry of a variable snapshot: a plain scalar, an ordered list
of member entries (class/struct kind), or an ordered list of element values
(array kind). -/
inductive VarValue where
  | prim (v : PyVal)
  | members (ms : List MemberInfo)
  | elems (vs : List PyVal)
  deriving DecidableEq, Repr

/-- A variable snapshot, the dictionary built by `get_variable_info`.
`primitive` and `className` are `none` when the corresponding key is absent. -/
structure VarInfo where
  name : String
  type : String
  value : VarValue
  address : String
  scope : String
  isAlive : Bool
  primitive : Option String
  className : Option String
  deriving DecidableEq, Repr

/-- Python `hex` digits of a natural number. -/
def hexStr (n : Nat) : String :=
  String.mk (Nat.toDigits 16 n)

/-- `hex(GetLoadAddress())` when the address is valid, the literal `0x0`
sentinel otherwise. -/
def addrStr : Option Nat → String
  | some a => ("0x") ++ hexStr a
  | none => ("0x0")

/- ## Frame Snapshot Extractor: get_variable_value / get_variable_info -/

/-- `get_variable_value`: best-effort coercion of a variable's textual value,
driven by its declared type name.  A type name containing `int` attempts an
integer parse, `float` or `double` a float parse, `bool` maps by
case-insensitive equality with `true`; otherwise a double-quote-wrapped value
has the quotes stripped; every parse failure falls back to the raw text. -/
def get_variable_value (p : PyParse) (v : SBValue) : PyVal :=
  match v.valueStr with
  | none => .pynull
  | some s =>
    let tl := strLower v.typeName
    if strContains tl ("int") then
      match p.intParse s with
      | some n => .pyint n
      | none => .pystr s
    else if strContains tl ("float") || strContains tl ("double") then
      match p.floatParse s with
      | some d => .pyfloat d
      | none => .pystr s
    else if strContains tl ("bool") then
      .pybool (strLower s == ("true"))
    else if quoted s then
      .pystr (pySlice1m1 s)
    else
      .pystr s

/-- One member entry of a class/struct variable (name, type, value, address). -/
def memberInfo (p : PyParse) (m : SBValue) : MemberInfo :=
  { name := m.name, type := m.typeName, value := get_variable_value p m,
    address := addrStr m.loadAddress }

/-- `get_variable_info`: the structural classification of a variable.  A
class/struct type gets kind `class` with one level of member entries; a type
name containing a pointer marker gets kind `pointer`; a type name containing
a bracket, or an array-typed variable, gets kind `array` with at most 100
element entries; anything else keeps the plain coerced value. -/
def get_variable_info (p : PyParse) (v : SBValue) : VarInfo :=
  let base : VarInfo :=
    { name := v.name, type := v.typeName,
      value := .prim (get_variable_value p v),
      address := addrStr v.loadAddress, scope := ("local"), isAlive := true,
      primitive := none, className := none }
  if v.typeClass = .classType ∨ v.typeClass = .structType then
    { base with
      primitive := some ("class"), className := some v.typeName,
      value := .members (v.children.map (memberInfo p)) }
  else if strContains v.typeName ("*") then
    { base with primitive := some ("pointer") }
  else if strContains v.typeName ("[") || v.isArray then
    { base with
      primitive := some ("array"),
      value := .elems ((v.children.take 100).map (get_variable_value p)) }
  else
    base

/- ## User-Code Filter -/

/-- Tracer session configuration: the target source path seeded from the
semantic-info artifact (empty when unset, already normalized by the
constructor), its basename, the platform flag (`platformWin` selects the
manual elapsed-time timeout check; otherwise the alarm signal is armed), the
wall-clock budget, and the OS path-resolution capability `resolvePath`
modelling `normpath(abspath(join(directory, filename)))`. -/
structure TracerConfig where
  user_source_file : String
  user_source_basename : Option String
  resolvePath : Option String → String → String
  platformWin : Bool
  timeout_seconds : Nat

/-- A stopped frame as the tracer observes it through the backend: validity
flags for the frame, its thread, its line entry and its file spec; the file
spec's filename and directory (Python `None` modelled by `none`); the line
number; the function name; the thread's stack depth; and the in-scope
variables (arguments + locals, statics excluded). -/
structure FrameData where
  valid : Bool
  threadValid : Bool
  lineEntryValid : Bool
  fileSpecValid : Bool
  filename : Option String
  directory : Option String
  line : Nat
  functionName : Option String
  stackDepth : Nat
  frameVars : List SBValue

/-- The deny list of filename substrings associated with runtime and
standard-library internals. -/
def system_patterns : List String :=
  [("crt"), ("msvcrt"), ("vcruntime"), ("ucrtbase"),
   ("iostream"), ("ostream"), ("istream"),
   ("locale"), ("xlocale"), ("iosfwd"), ("streambuf"),
   ("kernel32"), ("ntdll"), ("libc"), ("libstdc++"),
   ("basic_"), ("char_traits"), ("__")]

/-- The deny list of directory substrings associated with system include
paths. -/
def system_dirs : List String :=
  [("include/c++"), ("windows kits"), ("microsoft visual studio"),
   ("program files"), ("mingw"), ("gcc"), ("clang"), ("llvm"),
   ("/usr/include"), ("/usr/lib")]

/-- The recognized native-source filename extensions. -/
def sourceExts : List String :=
  [(".c"), (".cpp"), (".cc"), (".cxx"), (".C")]

/-- `is_user_code`: does a frame belong to the program under study?  A frame
without a valid line entry, file spec or filename is never user code.
Strategy 1: the resolved full path equals the configured target source path.
Strategy 2: the filename equals the configured target basename.  Strategy 3:
the lowercased filename contains no deny-listed system pattern, the filename
has a recognized native-source extension, and the lowercased directory
contains no deny-listed system directory fragment. -/
def is_user_code (cfg : TracerConfig) (fr : FrameData) : Bool :=
  if !fr.valid then false
  else if !fr.lineEntryValid then false
  else if !fr.fileSpecValid then false
  else
    match fr.filename with
    | none => false
    | some fp =>
      if fp = ("") then false
      else if cfg.user_source_file ≠ ("") ∧
          cfg.resolvePath fr.directory fp = cfg.user_source_file then true
      else if (match cfg.user_source_basename with
               | some b => decide (fp = b)
               | none => false) = true then true
      else
        let file_lower := strLower fp
        if system_patterns.any (fun pat => strContains file_lower pat) then false
        else if sourceExts.any (fun e => strEndsWith fp e) then
          let directory_lower := strLower (fr.directory.getD (""))
          if system_dirs.any (fun d => strContains directory_lower d) then false
          else true
        else false

/- ## Step Deduplication Engine -/

/-- The frame signature `(functionName, sourceFile, sourceLine, stackDepth)`
used as the deduplication key. -/
structure FrameSig where
  functionName : String
  sourceFile : Option String
  sourceLine : Nat
  stackDepth : Nat
  deriving DecidableEq, Repr

/-- The signature of a frame: function name (`unknown` when absent), the line
entry's filename and line, and the thread's frame count. -/
def frameSigOf (fr : FrameData) : FrameSig :=
  { functionName := fr.functionName.getD ("unknown"),
    sourceFile := fr.filename, sourceLine := fr.line,
    stackDepth := fr.stackDepth }

/-- The tracer-object fields `should_record_step` reads and writes. -/
structure DedupState where
  last_frame_signature : Option FrameSig
  found_user_code : Bool
  deriving DecidableEq, Repr

/-- `should_record_step`: rejects non-user-code frames and frames with an
invalid thread; otherwise marks user code as found and records the step
exactly when the current signature differs from the stored one, updating the
stored signature in that case. -/
def should_record_step (cfg : TracerConfig) (st : DedupState) (fr : FrameData) :
    Bool × DedupState :=
  if !is_user_code cfg fr then (false, st)
  else if !fr.threadValid then (false, st)
  else
    let sig := frameSigOf fr
    let st1 : DedupState := { st with found_user_code := true }
    if some sig ≠ st.last_frame_signature then
      (true, { st1 with last_frame_signature := some sig })
    else
      (false, st1)

/- ## Frame info and the textual form of values -/

/-- One frame snapshot: function, line, file and the locals dictionary
(insertion-ordered, keyed by variable name). -/
structure FrameInfo where
  function : String
  line : Nat
  file : Option String
  locals : List (String × VarInfo)
  deriving DecidableEq, Repr

/-- Python dictionary lookup over the insertion-ordered association list. -/
def dictFind (l : List (String × VarInfo)) (k : String) : Option VarInfo :=
  match l with
  | [] => none
  | (a, v) :: rest => if a = k then some v else dictFind rest k

/-- Python dictionary assignment: an existing key keeps its position and gets
the new value, a fresh key is appended. -/
def dictSet (l : List (String × VarInfo)) (k : String) (v : VarInfo) :
    List (String × VarInfo) :=
  match l with
  | [] => [(k, v)]
  | (a, w) :: rest => if a = k then (k, v) :: rest else (a, w) :: dictSet rest k v

/-- `get_frame_info`: the frame snapshot — function name (`unknown` when
absent), line and file from the line entry (0 / `unknown` when the entry is
invalid), and the locals dictionary built from the in-scope variables. -/
def get_frame_info (p : PyParse) (fr : FrameData) : FrameInfo :=
  { function := fr.functionName.getD ("unknown"),
    line := if fr.lineEntryValid then fr.line else 0,
    file := if fr.lineEntryValid then fr.filename else some ("unknown"),
    locals := fr.frameVars.foldl
      (fun acc v =>
        let vi := get_variable_info p v
        dictSet acc vi.name vi) [] }

/-- The single-quote character. -/
def sq : String := String.mk [Char.ofNat 39]

/-- The left-brace character. -/
def lbr : String := String.mk [Char.ofNat 123]

/-- The right-brace character. -/
def rbr : String := String.mk [Char.ofNat 125]

/-- Python `repr` of a scalar snapshot value, as it appears inside a list or
dictionary display (strings are quoted; escaping inside the string is not
modelled, which is exact for quote-free and backslash-free text). -/
def pyReprVal : PyVal → String
  | .pynull => ("None")
  | .pyint n => toString n
  | .pyfloat s => s
  | .pybool b => if b then ("True") else ("False")
  | .pystr s => sq ++ s ++ sq

/-- Python `repr` of one aggregate-member dictionary. -/
def pyReprMember (m : MemberInfo) : String :=
  lbr ++ sq ++ ("name") ++ sq ++ (": ") ++ sq ++ m.name ++ sq ++ (", ") ++
  sq ++ ("type") ++ sq ++ (": ") ++ sq ++ m.type ++ sq ++ (", ") ++
  sq ++ ("value") ++ sq ++ (": ") ++ pyReprVal m.value ++ (", ") ++
  sq ++ ("address") ++ sq ++ (": ") ++ sq ++ m.address ++ sq ++ rbr

/-- Comma-space separated concatenation, as in Python list displays. -/
def commaSep : List String → String
  | [] => ("")
  | [x] => x
  | x :: y :: rest => x ++ (", ") ++ commaSep (y :: rest)

/-- Python `str` of a snapshot's `value` entry, the textual form the
value-change scan compares: scalars via `str`, member and element lists via
their list display. -/
def pyStrValue : VarValue → String
  | .prim v =>
    match v with
    | .pystr s => s
    | w => pyReprVal w
  | .members ms => ("[") ++ commaSep (ms.map pyReprMember) ++ ("]")
  | .elems vs => ("[") ++ commaSep (vs.map pyReprVal) ++ ("]")

/- ## Step Classification Engine -/

/-- The typed step information `detect_step_type` returns: the kind plus the
optional `className`, `objectName` and `variable` entries (`varField` models
the dictionary key `variable`, which is a reserved word here). -/
structure StepTypeInfo where
  type : String
  className : Option String
  objectName : Option String
  varField : Option String
  deriving DecidableEq, Repr

/-- The first variable of the current locals (in enumeration order) whose name
is absent from the previous locals. -/
def firstNew (cur prev : List (String × VarInfo)) : Option (String × VarInfo) :=
  match cur with
  | [] => none
  | (n, vi) :: rest =>
    if dictFind prev n = none then some (n, vi) else firstNew rest prev

/-- The step kind a newly appeared variable determines: class kind yields
`object_creation` (with `className` and the variable name), pointer and array
kinds their declaration kinds, anything else `variable_declaration`. -/
def classifyNew (n : String) (vi : VarInfo) : StepTypeInfo :=
  if vi.primitive = some ("class") then
    { type := ("object_creation"), className := vi.className,
      objectName := some n, varField := some n }
  else if vi.primitive = some ("pointer") then
    { type := ("pointer_declaration"), className := none,
      objectName := none, varField := some n }
  else if vi.primitive = some ("array") then
    { type := ("array_declaration"), className := none,
      objectName := none, varField := some n }
  else
    { type := ("variable_declaration"), className := none,
      objectName := none, varField := some n }

/-- The first variable present in both snapshots whose textual value form
differs. -/
def firstChanged (cur prev : List (String × VarInfo)) : Option String :=
  match cur with
  | [] => none
  | (n, vi) :: rest =>
    match dictFind prev n with
    | some pv =>
      if pyStrValue vi.value ≠ pyStrValue pv.value then some n
      else firstChanged rest prev
    | none => firstChanged rest prev

/-- The `line_execution` fallback information. -/
def lineExec : StepTypeInfo :=
  { type := ("line_execution"), className := none, objectName := none,
    varField := none }

/-- The class qualifier `parts[-2]` of a scope-separated function name. -/
def ctorClassName (func_name : String) : String :=
  (pySplit func_name ("::")).getD ((pySplit func_name ("::")).length - 2) ("")

/-- The member qualifier `parts[-1]` of a scope-separated function name. -/
def ctorMethodName (func_name : String) : String :=
  (pySplit func_name ("::")).getD ((pySplit func_name ("::")).length - 1) ("")

/-- Constructor/destructor inference from the qualified function name: when it
contains the scope separator, a member name equal to the class qualifier is an
`object_creation`, a member name prefixed by the destructor marker is an
`object_destruction`; anything else is `line_execution`. -/
def ctorDtorInfo (func_name : String) : StepTypeInfo :=
  if strContains func_name ("::") then
    if 2 ≤ (pySplit func_name ("::")).length then
      if ctorMethodName func_name = ctorClassName func_name then
        { type := ("object_creation"),
          className := some (ctorClassName func_name),
          objectName := none, varField := none }
      else if (ctorMethodName func_name).toList.head? = some ('~') then
        { type := ("object_destruction"),
          className := some (ctorClassName func_name),
          objectName := none, varField := none }
      else lineExec
    else lineExec
  else lineExec

/-- `detect_step_type`: the classification chain — first new variable, then
first value change, then constructor/destructor inference, then the
`line_execution` fallback. -/
def detect_step_type (fi : FrameInfo) (previous_locals : List (String × VarInfo)) :
    StepTypeInfo :=
  match firstNew fi.locals previous_locals with
  | some (n, vi) => classifyNew n vi
  | none =>
    match firstChanged fi.locals previous_locals with
    | some n =>
      { type := ("assignment"), className := none, objectName := none,
        varField := some n }
    | none => ctorDtorInfo fi.function

/- ## Steps and the session driver -/

/-- One trace entry.  Optional fields model dictionary keys that are present
only for some step kinds; `varField` models the key `variable`. -/
structure Step where
  id : Nat
  type : String
  line : Nat
  function : Option String
  explanation : String
  className : Option String
  objectName : Option String
  varField : Option String
  name : Option String
  dataType : Option String
  primitive : Option String
  value : Option VarValue
  address : Option String
  scope : Option String
  callStack : List FrameInfo
  deriving DecidableEq, Repr

/-- Build the step appended for a recorded frame: the base entry, the
type-specific fields merged in, and — when the classification names a
variable that is present in the locals — that variable's snapshot data. -/
def buildStep (step_id : Nat) (fi : FrameInfo) (info : StepTypeInfo) : Step :=
  let base : Step :=
    { id := step_id, type := info.type, line := fi.line,
      function := some fi.function,
      explanation := ("Executing line ") ++ toString fi.line,
      className := info.className, objectName := info.objectName,
      varField := info.varField,
      name := none, dataType := none, primitive := none, value := none,
      address := none, scope := none, callStack := [fi] }
  match info.varField with
  | some vn =>
    match dictFind fi.locals vn with
    | some vd =>
      { base with
        name := some vn, dataType := some vd.type,
        primitive := some (vd.primitive.getD ("int")),
        value := some vd.value, address := some vd.address,
        scope := some ("local") }
    | none => base
  | none => base

/-- The synthetic `program_end` terminal step. -/
def endStep (step_id : Nat) (last_line : Nat) : Step :=
  { id := step_id, type := ("program_end"), line := last_line,
    function := none, explanation := ("Program execution completed"),
    className := none, objectName := none, varField := none, name := none,
    dataType := none, primitive := none, value := none, address := none,
    scope := none, callStack := [] }

/-- The synthetic `timeout` terminal step. -/
def timeoutStep (step_id : Nat) (last_line : Nat) (secs : Nat) : Step :=
  { id := step_id, type := ("timeout"), line := last_line,
    function := none,
    explanation := ("Execution timed out after ") ++ toString secs ++ ("s"),
    className := none, objectName := none, varField := none, name := none,
    dataType := none, primitive := none, value := none, address := none,
    scope := none, callStack := [] }

/-- The mutable session state the stepping loop threads: the trace buffer and
next step id (tracer-object fields), the deduplication state, the loop-local
step and stuck counters and previous-locals snapshot, and — as derived ghost
data for stating the signature invariant — the signatures of the recorded
steps in order. -/
structure LoopState where
  trace : List Step
  step_id : Nat
  dedup : DedupState
  step_count : Nat
  previous_locals : List (String × VarInfo)
  stuck_count : Nat
  sigTrace : List FrameSig

/-- How one session run ends. `fuelOut` marks an observation stream too short
to drive the loop to its end — no trace is produced for it. -/
inductive EndReason where
  | stepLimit
  | alarmTimeout
  | manualBreak
  | completed
  | noThread
  | noFrame
  | stuck
  | fuelOut
  deriving DecidableEq, Repr

/-- One loop iteration's observation of the external world: whether the alarm
signal fires at this point, whether the wall-clock budget is exceeded (the
manual check), whether the process is still stopped/suspended, and the
selected thread's selected frame. -/
structure Obs where
  alarmFires : Bool
  elapsedOver : Bool
  processRunning : Bool
  frame : FrameData

/-- The stuck-loop threshold (`max_stuck`). -/
def max_stuck : Nat := 200

/-- The state update of one recorded step: extract the frame snapshot,
classify it against the previous locals, append the built step, advance the
id and step counters, reset the stuck counter, and replace the previous
locals wholesale.  The recorded signature is also kept as ghost data. -/
def recordState (cfg : TracerConfig) (p : PyParse) (st : LoopState)
    (fr : FrameData) : LoopState :=
  let fi := get_frame_info p fr
  let info := detect_step_type fi st.previous_locals
  let step := buildStep st.step_id fi info
  { trace := st.trace ++ [step], step_id := st.step_id + 1,
    dedup := (should_record_step cfg st.dedup fr).2,
    step_count := st.step_count + 1, previous_locals := fi.locals,
    stuck_count := 0, sigTrace := st.sigTrace ++ [frameSigOf fr] }

/-- The state update of a non-recorded stop: the deduplication side effects
are kept and the stuck counter is incremented. -/
def stuckState (cfg : TracerConfig) (st : LoopState) (fr : FrameData) :
    LoopState :=
  { st with dedup := (should_record_step cfg st.dedup fr).2,
            stuck_count := st.stuck_count + 1 }

/-- The stepping loop of `generate_trace`, one observation per iteration, in
the order of the source: the step-count guard on the `while`, the manual
timeout check (Windows only), the alarm signal (non-Windows only, modelled at
the iteration boundary), the process-state check, the thread and frame
validity checks, then the record-or-stuck decision. -/
def runLoop (cfg : TracerConfig) (p : PyParse) (max_steps : Nat) :
    LoopState → List Obs → LoopState × EndReason
  | st, obss =>
    if max_steps ≤ st.step_count then (st, .stepLimit)
    else
      match obss with
      | [] => (st, .fuelOut)
      | obs :: rest =>
        if !cfg.platformWin && obs.alarmFires then (st, .alarmTimeout)
        else if cfg.platformWin && obs.elapsedOver then (st, .manualBreak)
        else if !obs.processRunning then (st, .completed)
        else if !obs.frame.threadValid then (st, .noThread)
        else if !obs.frame.valid then (st, .noFrame)
        else if (should_record_step cfg st.dedup obs.frame).1 then
          runLoop cfg p max_steps (recordState cfg p st obs.frame) rest
        else if max_stuck < (stuckState cfg st obs.frame).stuck_count then
          (stuckState cfg st obs.frame, .stuck)
        else runLoop cfg p max_steps (stuckState cfg st obs.frame) rest

/-- The initial session state. -/
def initState : LoopState :=
  { trace := [], step_id := 0,
    dedup := { last_frame_signature := none, found_user_code := false },
    step_count := 0, previous_locals := [], stuck_count := 0, sigTrace := [] }

/-- Trace finalization: the alarm-timeout ending appends a `timeout` step
carrying the last recorded line; every other ending appends a `program_end`
step carrying the last known line — in both cases only when the trace is
non-empty. -/
def finalizeTrace (secs : Nat) (st : LoopState) (r : EndReason) : List Step :=
  if r = .alarmTimeout then
    match st.trace.getLast? with
    | some lastStep => st.trace ++ [timeoutStep st.step_id lastStep.line secs]
    | none => st.trace
  else
    match st.trace.getLast? with
    | some lastStep => st.trace ++ [endStep st.step_id lastStep.line]
    | none => st.trace

/-- `generate_trace` for a session whose external interactions are described
by the observation stream; `none` when the stream is too short to drive the
loop to its end. -/
def generate_trace (cfg : TracerConfig) (p : PyParse) (max_steps : Nat)
    (obss : List Obs) : Option (List Step) :=
  if (runLoop cfg p max_steps initState obss).2 = .fuelOut then none
  else
    some (finalizeTrace cfg.timeout_seconds
      (runLoop cfg p max_steps initState obss).1
      (runLoop cfg p max_steps initState obss).2)

/-- The emitted output document `{steps, totalSteps}`. -/
structure OutputDoc where
  steps : List Step
  totalSteps : Nat
  deriving DecidableEq, Repr

/-- `main`'s output construction: the document printed to standard output. -/
def emitDoc (tr : List Step) : OutputDoc :=
  { steps := tr, totalSteps := tr.length }

/-- The session entry point as far as the output document is concerned:
generate the trace, then emit it. -/
def runMain (cfg : TracerConfig) (p : PyParse) (max_steps : Nat)
    (obss : List Obs) : Option OutputDoc :=
  (generate_trace cfg p max_steps obss).map emitDoc

/- ## Session invariant -/

/-- The inductive invariant of the stepping loop: the next id equals the
trace length, ids are exactly `0, 1, …`, the recorded signatures are in
bijection with the recorded steps, consecutive recorded signatures differ,
and the stored deduplication signature is the last recorded one. -/
def LoopInv (st : LoopState) : Prop :=
  st.step_id = st.trace.length ∧
  st.trace.map Step.id = List.range st.trace.length ∧
  st.sigTrace.length = st.trace.length ∧
  List.Chain' (fun a b => a ≠ b) st.sigTrace ∧
  ∀ s, st.sigTrace.getLast? = some s →
    st.dedup.last_frame_signature = some s

/- ## Concrete fixtures for witnesses and counterexamples -/

/-- A session configured without a semantic-info source file, on a
non-Windows platform. -/
def cfgU : TracerConfig :=
  { user_source_file := (""), user_source_basename := none,
    resolvePath := fun d f => (d.getD ("")) ++ ("/") ++ f,
    platformWin := false, timeout_seconds := 30 }

/-- A parse capability recognizing the small integers the fixtures use. -/
def pFix : PyParse :=
  { intParse := fun s =>
      if s = ("1") then some 1 else if s = ("2") then some 2 else none,
    floatParse := fun _ => none }

/-- A stopped frame in the user's `main.cpp`, line 3. -/
def frMain : FrameData :=
  { valid := true, threadValid := true, lineEntryValid := true,
    fileSpecValid := true, filename := some ("main.cpp"),
    directory := some ("/home/user/proj"), line := 3,
    functionName := some ("main"), stackDepth := 1, frameVars := [] }

/-- The same frame one line later. -/
def frMain4 : FrameData :=
  { frMain with line := 4 }

/-- A frame whose containing directory contains the stream-library marker
`iostream` while its filename does not. -/
def frIoDir : FrameData :=
  { frMain with directory := some ("/home/iostream/proj") }

/-- An integer variable handle with textual value `1`. -/
def vIntOne : SBValue :=
  .mk ("a") ("int") (some ("1")) (some 4096) .otherType false []

/-- The same integer variable with textual value `2`. -/
def vIntTwo : SBValue :=
  .mk ("a") ("int") (some ("2")) (some 4096) .otherType false []

/-- A class-typed member handle. -/
def vMember : SBValue :=
  .mk ("x") ("int") (some ("2")) (some 16) .otherType false []

/-- A class-typed variable handle with one member. -/
def vCls : SBValue :=
  .mk ("obj") ("MyClass") none (some 32) .classType false [vMember]

/-- An array-typed variable handle backed by 250 logical elements. -/
def vArr : SBValue :=
  .mk ("arr") ("int[250]") none (some 8) .otherType true
    (List.replicate 250 (.mk ("e") ("int") (some ("1")) none .otherType false []))

/-- An observation with a live process stopped at the given frame. -/
def obsOf (fr : FrameData) : Obs :=
  { alarmFires := false, elapsedOver := false, processRunning := true,
    frame := fr }

/-- An observation reporting the process no longer stopped/suspended. -/
def obsEnd : Obs :=
  { alarmFires := false, elapsedOver := false, processRunning := false,
    frame := frMain }

/-- An observation at which the timeout alarm fires. -/
def obsAlarm : Obs :=
  { alarmFires := true, elapsedOver := false, processRunning := true,
    frame := frMain }

/-- The fresh deduplication state. -/
def d0 : DedupState :=
  { last_frame_signature := none, found_user_code := false }

/-- A deduplication state already holding `frMain`'s signature, with user
code not yet marked as found. -/
def dSig : DedupState :=
  { last_frame_signature := some (frameSigOf frMain), found_user_code := false }

/-- A frame introducing both a plain integer variable and a class variable,
in that enumeration order. -/
def frTwoNew : FrameData :=
  { frMain with line := 5, frameVars := [vIntOne, vCls] }

/-- A frame whose locals are the changed integer (now `2`) followed by the
class variable. -/
def frChangedNew : FrameData :=
  { frMain with line := 6, frameVars := [vIntTwo, vCls] }

/-- The previous-locals snapshot holding only the integer at value `1`. -/
def prevIntOne : List (String × VarInfo) :=
  (get_frame_info pFix { frMain with frameVars := [vIntOne] }).locals

/-- A frame stopped inside a constructor (`Foo::Foo`), with no locals. -/
def fiCtor : FrameInfo :=
  { function := ("Foo::Foo"), line := 1, file := some ("main.cpp"),
    locals := [] }

/-- A frame stopped inside a destructor (`Foo::~Foo`), with no locals. -/
def fiDtor : FrameInfo :=
  { function := ("Foo::~Foo"), line := 9, file := some ("main.cpp"),
    locals := [] }

/-- An integer variable whose textual value the integer parse rejects. -/
def vBadInt : SBValue :=
  .mk ("b") ("int") (some ("garbage")) none .otherType false []

/-- A frame whose filename itself contains the `iostream` marker with a
native-source extension. -/
def frIoFile : FrameData :=
  { frMain with filename := some ("my_iostream.cpp") }

/-- A session whose semantic-info source file is itself named
`iostream.cpp`. -/
def cfgIo : TracerConfig :=
  { cfgU with user_source_file := ("/tmp/iostream.cpp"),
              user_source_basename := some ("iostream.cpp") }

/-- A frame stopped in a file whose basename is `iostream.cpp`. -/
def frIoBase : FrameData :=
  { frMain with filename := some ("iostream.cpp"),
                directory := some ("/tmp") }

/-- An observation stream recording one step and then hitting the alarm. -/
def obssAlarmW : List Obs := [obsOf frMain, obsAlarm]

/-- The trace the alarm-ended session produces. -/
def trA : List Step := (generate_trace cfgU pFix 10 obssAlarmW).getD []

/-- Its last element. -/
def lastA : Step := (trA.getLast?).getD (endStep 0 0)

/-- An observation stream recording two steps and then seeing the process
exit. -/
def obssTwo : List Obs := [obsOf frMain, obsOf frMain4, obsEnd]

/-- The trace the two-step session produces. -/
def trTwo : List Step := (generate_trace cfgU pFix 10 obssTwo).getD []

/- ## Helper lemmas: the deduplication engine -/

theorem should_record_true_iff (cfg : TracerConfig) (st : DedupState)
    (fr : FrameData) :
    (should_record_step cfg st fr).1 = true ↔
      is_user_code cfg fr = true ∧ fr.threadValid = true ∧
        some (frameSigOf fr) ≠ st.last_frame_signature := by
  by_cases h1 : is_user_code cfg fr = true <;>
    by_cases h2 : fr.threadValid = true <;>
    by_cases h3 : some (frameSigOf fr) = st.last_frame_signature <;>
    simp [should_record_step, h1, h2, h3]

theorem should_record_snd_true (cfg : TracerConfig) (st : DedupState)
    (fr : FrameData) (h : (should_record_step cfg st fr).1 = true) :
    (should_record_step cfg st fr).2.last_frame_signature =
        some (frameSigOf fr) ∧
      (should_record_step cfg st fr).2.found_user_code = true := by
  rcases (should_record_true_iff cfg st fr).mp h with ⟨h1, h2, h3⟩
  simp [should_record_step, h1, h2, h3]

theorem should_record_snd_false (cfg : TracerConfig) (st : DedupState)
    (fr : FrameData) (h : (should_record_step cfg st fr).1 = false) :
    (should_record_step cfg st fr).2.last_frame_signature =
      st.last_frame_signature := by
  by_cases h1 : is_user_code cfg fr = true <;>
    by_cases h2 : fr.threadValid = true <;>
    by_cases h3 : some (frameSigOf fr) = st.last_frame_signature <;>
    simp_all [should_record_step, h1, h2, h3]

theorem should_record_not_user (cfg : TracerConfig) (st : DedupState)
    (fr : FrameData) (h : is_user_code cfg fr = false) :
    should_record_step cfg st fr = (false, st) := by
  simp [should_record_step, h]

theorem should_record_found (cfg : TracerConfig) (st : DedupState)
    (fr : FrameData) (h1 : is_user_code cfg fr = true)
    (h2 : fr.threadValid = true) :
    (should_record_step cfg st fr).2.found_user_code = true := by
  by_cases h3 : some (frameSigOf fr) = st.last_frame_signature <;>
    simp [should_record_step, h1, h2, h3]

/- ## Helper lemmas: the session loop invariant -/

theorem buildStep_id (i : Nat) (fi : FrameInfo) (info : StepTypeInfo) :
    (buildStep i fi info).id = i := by
  unfold buildStep
  split
  · split <;> rfl
  · rfl

theorem recordState_inv (cfg : TracerConfig) (p : PyParse) (st : LoopState)
    (fr : FrameData) (hrec : (should_record_step cfg st.dedup fr).1 = true)
    (h : LoopInv st) : LoopInv (recordState cfg p st fr) := by
  obtain ⟨h1, h2, h3, h4, h5⟩ := h
  rcases (should_record_true_iff cfg st.dedup fr).mp hrec with ⟨hu, ht, hne⟩
  obtain ⟨hl, hf⟩ := should_record_snd_true cfg st.dedup fr hrec
  refine ⟨?_, ?_, ?_, ?_, ?_⟩
  · simp [recordState, h1]
  · simp only [recordState]
    rw [List.map_append, h2, List.length_append]
    simp [buildStep_id, h1, List.range_succ]
  · simp [recordState, h3]
  · simp only [recordState]
    rw [List.chain'_append]
    refine ⟨h4, List.chain'_singleton _, ?_⟩
    intro x hx y hy
    simp only [List.head?_cons, Option.mem_def, Option.some.injEq] at hy
    subst hy
    intro hxy
    apply hne
    rw [hxy] at hx
    exact (h5 _ hx).symm
  · intro s hs
    simp only [recordState] at hs ⊢
    rw [List.getLast?_concat] at hs
    cases hs
    exact hl

theorem stuckState_inv (cfg : TracerConfig) (st : LoopState) (fr : FrameData)
    (hrec : (should_record_step cfg st.dedup fr).1 = false)
    (h : LoopInv st) : LoopInv (stuckState cfg st fr) := by
  obtain ⟨h1, h2, h3, h4, h5⟩ := h
  have hl := should_record_snd_false cfg st.dedup fr hrec
  refine ⟨h1, h2, h3, h4, fun s hs => ?_⟩
  simp only [stuckState] at hs ⊢
  rw [hl]
  exact h5 s hs

theorem runLoop_inv (cfg : TracerConfig) (p : PyParse) (m : Nat)
    (obss : List Obs) (st : LoopState) (h : LoopInv st) :
    LoopInv (runLoop cfg p m st obss).1 := by
  induction obss generalizing st with
  | nil =>
    rw [runLoop]
    split <;> exact h
  | cons obs rest ih =>
    rw [runLoop]
    split
    · exact h
    · split
      · exact h
      · split
        · exact h
        · split
          · exact h
          · split
            · exact h
            · split
              · exact h
              · split
                · next hrec =>
                  exact ih (recordState cfg p st obs.frame)
                    (recordState_inv cfg p st obs.frame hrec h)
                · next hrec =>
                  have hrec' : (should_record_step cfg st.dedup obs.frame).1 = false := by
                    simpa using hrec
                  split
                  · exact stuckState_inv cfg st obs.frame hrec' h
                  · exact ih (stuckState cfg st obs.frame)
                      (stuckState_inv cfg st obs.frame hrec' h)

theorem initState_inv : LoopInv initState := by
  refine ⟨rfl, rfl, rfl, List.chain'_nil, ?_⟩
  intro s hs
  simp [initState] at hs

/- ## Helper lemmas: trace finalization -/

theorem finalize_map_id (secs : Nat) (st : LoopState) (r : EndReason)
    (h1 : st.step_id = st.trace.length)
    (h2 : st.trace.map Step.id = List.range st.trace.length) :
    (finalizeTrace secs st r).map Step.id =
      List.range (finalizeTrace secs st r).length := by
  unfold finalizeTrace
  split <;> split
  · next lastStep heq =>
    simp only [List.map_append, List.length_append, List.length_singleton,
      List.map_cons, List.map_nil, timeoutStep]
    rw [h2, List.range_succ, h1]
  · exact h2
  · next lastStep heq =>
    simp only [List.map_append, List.length_append, List.length_singleton,
      List.map_cons, List.map_nil, endStep]
    rw [h2, List.range_succ, h1]
  · exact h2

theorem finalize_getLast_kind (secs : Nat) (st : LoopState) (r : EndReason)
    (last : Step) (h : (finalizeTrace secs st r).getLast? = some last) :
    last.type = ("program_end") ∨ last.type = ("timeout") := by
  unfold finalizeTrace at h
  split at h <;> split at h
  · next lastStep heq =>
    rw [List.getLast?_concat] at h
    cases h
    right; rfl
  · next heq => rw [heq] at h; cases h
  · next lastStep heq =>
    rw [List.getLast?_concat] at h
    cases h
    left; rfl
  · next heq => rw [heq] at h; cases h

theorem finalize_empty (secs : Nat) (st : LoopState) (r : EndReason)
    (h : st.trace.getLast? = none) : finalizeTrace secs st r = st.trace := by
  unfold finalizeTrace
  split <;> rw [h]

theorem generate_trace_eq (cfg : TracerConfig) (p : PyParse) (m : Nat)
    (obss : List Obs) (tr : List Step)
    (hg : generate_trace cfg p m obss = some tr) :
    tr = finalizeTrace cfg.timeout_seconds (runLoop cfg p m initState obss).1
      (runLoop cfg p m initState obss).2 := by
  unfold generate_trace at hg
  split at hg
  · cases hg
  · cases hg
    rfl

/- ## Claim C1 -/

/-- C1 (amended): in every session whose observation stream drives the loop
to an actual end, whenever the produced trace is non-empty its last element
has kind `program_end` or `timeout`, and under the alarm-based timeout
ending the last element is the synthetic `timeout` step carrying the line of
the last recorded step.  The further part of the claim — that every produced
steps sequence is non-empty — fails: see the counterexample, a session that
records no step and produces an empty trace with no terminal element. -/
theorem C1_terminal_amended (cfg : TracerConfig) (p : PyParse) (m : Nat)
    (obss : List Obs) (tr : List Step)
    (hg : generate_trace cfg p m obss = some tr) (last : Step)
    (hl : tr.getLast? = some last) :
    (last.type = ("program_end") ∨ last.type = ("timeout")) ∧
    ((runLoop cfg p m initState obss).2 = .alarmTimeout →
      ∃ prev, (runLoop cfg p m initState obss).1.trace.getLast? = some prev ∧
        last = timeoutStep (runLoop cfg p m initState obss).1.step_id
          prev.line cfg.timeout_seconds) := by
  have htr := generate_trace_eq cfg p m obss tr hg
  constructor
  · exact finalize_getLast_kind cfg.timeout_seconds
      (runLoop cfg p m initState obss).1 (runLoop cfg p m initState obss).2
      last (htr ▸ hl)
  · intro halarm
    rw [htr, halarm] at hl
    unfold finalizeTrace at hl
    rw [if_pos rfl] at hl
    rcases heq : (runLoop cfg p m initState obss).1.trace.getLast? with _ | prev
    · rw [heq] at hl
      rw [heq] at hl
      cases hl
    · rw [heq, List.getLast?_concat] at hl
      cases hl
      exact ⟨prev, rfl, rfl⟩

/-- C1 counterexample: a session whose process exits before any user-code
step is recorded does produce a trace (the emitted document holds it), but
that produced steps sequence is empty — no terminal step of any kind is
appended — refuting the claim that the produced steps sequence is always
non-empty with a terminal last element. -/
theorem C1_empty_trace_cex :
    generate_trace cfgU pFix 10 [obsEnd] = some [] := by decide

/-- C1 witness: a concrete alarm-ended session with one recorded step; the
produced trace's last element is the `timeout` step carrying the recorded
line. -/
theorem C1_terminal_amended_w :
    generate_trace cfgU pFix 10 obssAlarmW = some trA ∧
    trA.getLast? = some lastA ∧
    ((lastA.type = ("program_end") ∨ lastA.type = ("timeout")) ∧
    ((runLoop cfgU pFix 10 initState obssAlarmW).2 = .alarmTimeout →
      ∃ prev,
        (runLoop cfgU pFix 10 initState obssAlarmW).1.trace.getLast? =
          some prev ∧
        lastA = timeoutStep (runLoop cfgU pFix 10 initState obssAlarmW).1.step_id
          prev.line cfgU.timeout_seconds)) :=
  ⟨by decide, by decide,
    C1_terminal_amended cfgU pFix 10 obssAlarmW trA (by decide) lastA (by decide)⟩

/- ## Claim C2 -/

/-- C2: in every session, no two consecutively recorded steps have an
identical frame signature — the recorded signature sequence is pairwise
consecutively distinct and in bijection with the recorded steps — and, for a
user-code frame (with its valid stopped thread), `should_record_step`
returns true exactly when the signature differs from the stored last
signature, updating the stored signature on every true return. -/
theorem C2_signature_dedup :
    (∀ (cfg : TracerConfig) (p : PyParse) (m : Nat) (obss : List Obs),
      List.Chain' (fun a b => a ≠ b)
        (runLoop cfg p m initState obss).1.sigTrace ∧
      (runLoop cfg p m initState obss).1.sigTrace.length =
        (runLoop cfg p m initState obss).1.trace.length) ∧
    (∀ (cfg : TracerConfig) (st : DedupState) (fr : FrameData),
      is_user_code cfg fr = true → fr.threadValid = true →
      (((should_record_step cfg st fr).1 = true ↔
          some (frameSigOf fr) ≠ st.last_frame_signature) ∧
        ((should_record_step cfg st fr).1 = true →
          (should_record_step cfg st fr).2.last_frame_signature =
            some (frameSigOf fr)))) := by
  constructor
  · intro cfg p m obss
    obtain ⟨_, _, h3, h4, _⟩ := runLoop_inv cfg p m obss initState initState_inv
    exact ⟨h4, h3⟩
  · intro cfg st fr h1 h2
    constructor
    · rw [should_record_true_iff]
      simp [h1, h2]
    · intro h
      exact (should_record_snd_true cfg st fr h).1

/-- C2 witness: the deduplication characterization applied at a concrete
user-code frame against the fresh session state. -/
theorem C2_signature_dedup_w :
    is_user_code cfgU frMain = true ∧ frMain.threadValid = true ∧
      (((should_record_step cfgU d0 frMain).1 = true ↔
          some (frameSigOf frMain) ≠ d0.last_frame_signature) ∧
        ((should_record_step cfgU d0 frMain).1 = true →
          (should_record_step cfgU d0 frMain).2.last_frame_signature =
            some (frameSigOf frMain))) :=
  ⟨by decide, by decide, C2_signature_dedup.2 cfgU d0 frMain (by decide) (by decide)⟩

/- ## Claim C4 -/

/-- C4: in every produced trace, `steps[i].id = i` for every valid index:
ids are contiguous from 0, assigned at append time, including for the
synthetic terminal step, never reused or reordered. -/
theorem C4_monotonic_ids (cfg : TracerConfig) (p : PyParse) (m : Nat)
    (obss : List Obs) (tr : List Step)
    (hg : generate_trace cfg p m obss = some tr)
    (i : Nat) (hi : i < tr.length) : (tr.get ⟨i, hi⟩).id = i := by
  have htr := generate_trace_eq cfg p m obss tr hg
  obtain ⟨h1, h2, _, _, _⟩ := runLoop_inv cfg p m obss initState initState_inv
  have hmap : tr.map Step.id = List.range tr.length := by
    rw [htr]
    exact finalize_map_id cfg.timeout_seconds _ _ h1 h2
  have hq : (tr.map Step.id)[i]? = (List.range tr.length)[i]? := by rw [hmap]
  rw [List.getElem?_map, List.getElem?_range hi,
    List.getElem?_eq_getElem hi] at hq
  simpa using hq

/-- C4 witness: the id law applied at both ends of a concrete three-step
trace (two recorded steps plus the terminal step). -/
theorem C4_monotonic_ids_w :
    trTwo.length = 3 ∧ (trTwo.get ⟨0, by decide⟩).id = 0 ∧
      (trTwo.get ⟨2, by decide⟩).id = 2 :=
  ⟨by decide, C4_monotonic_ids cfgU pFix 10 obssTwo trTwo (by decide) 0 (by decide),
    C4_monotonic_ids cfgU pFix 10 obssTwo trTwo (by decide) 2 (by decide)⟩

/- ## Claim C3 -/

/-- C3 counterexample: with previous locals empty, the current frame
introduces both a plain integer `a` (first in enumeration order) and a
class-kind variable `obj`; `obj` is present, absent from the previous
locals, and of class kind, yet classification returns
`variable_declaration` for `a`, not `object_creation` — only the first new
variable in enumeration order drives the classification. -/
theorem C3_first_new_cex :
    dictFind (get_frame_info pFix frTwoNew).locals ("obj") =
      some (get_variable_info pFix vCls) ∧
    dictFind [] ("obj") = none ∧
    (get_variable_info pFix vCls).primitive = some ("class") ∧
    (detect_step_type (get_frame_info pFix frTwoNew) []).type =
      ("variable_declaration") ∧
    (detect_step_type (get_frame_info pFix frTwoNew) []).type ≠
      ("object_creation") := by decide

/-- C3 (amended): when the first variable of the current locals (in
enumeration order) that is absent from the previous locals is a variable
snapshot extracted from a class/struct-classified handle, classification
returns `object_creation` with `className` equal to that variable's declared
type name — even if other variables present in both snapshots changed value
in the same step; new-variable detection outranks value-change detection. -/
theorem C3_precedence_amended (p : PyParse) (fi : FrameInfo)
    (prev : List (String × VarInfo)) (n : String) (v : SBValue)
    (hfn : firstNew fi.locals prev = some (n, get_variable_info p v))
    (hcls : v.typeClass = .classType ∨ v.typeClass = .structType) :
    detect_step_type fi prev =
      { type := ("object_creation"), className := some v.typeName,
        objectName := some n, varField := some n } := by
  have hp : (get_variable_info p v).primitive = some ("class") ∧
      (get_variable_info p v).className = some v.typeName := by
    unfold get_variable_info
    rw [if_pos hcls]
    exact ⟨rfl, rfl⟩
  unfold detect_step_type
  rw [hfn]
  dsimp only
  unfold classifyNew
  rw [if_pos hp.1, hp.2]

/-- C3 witness: the previous snapshot holds the integer `a = 1`; the current
frame holds `a = 2` (a value change) followed by the new class variable
`obj`; the amended precedence law classifies the step as the creation of
`obj` with its declared type `MyClass`. -/
theorem C3_precedence_amended_w :
    firstNew (get_frame_info pFix frChangedNew).locals prevIntOne =
      some (("obj"), get_variable_info pFix vCls) ∧
    (dictFind (get_frame_info pFix frChangedNew).locals ("a")).map
      (fun vi => pyStrValue vi.value) = some ("2") ∧
    (dictFind prevIntOne ("a")).map
      (fun vi => pyStrValue vi.value) = some ("1") ∧
    detect_step_type (get_frame_info pFix frChangedNew) prevIntOne =
      { type := ("object_creation"), className := some (vCls.typeName),
        objectName := some ("obj"), varField := some ("obj") } :=
  ⟨by decide, by decide, by decide,
    C3_precedence_amended pFix (get_frame_info pFix frChangedNew) prevIntOne
      ("obj") vCls (by decide) (Or.inl rfl)⟩

/- ## Claim C5 -/

/-- C5 counterexample, refuting the claim under either reading of "file
path".  First: with no configured source file, a frame whose path contains
the stream marker `iostream` in its directory component — but not in its
filename — is classified as user code, because the deny-list patterns are
matched against the basename only.  Second: even with the marker inside the
basename itself, a frame whose filename equals the configured target
basename is classified as user code, because the target-match strategies run
before the deny list. -/
theorem C5_stream_marker_cex :
    (is_user_code cfgU frIoDir = true ∧
      strContains (cfgU.resolvePath frIoDir.directory
        ((frIoDir.filename).getD (""))) ("iostream") = true) ∧
    (is_user_code cfgIo frIoBase = true ∧
      strContains (strLower ((frIoBase.filename).getD (""))) ("iostream") =
        true) := by decide

/-- C5 (amended): a frame whose filename (lowercased) contains a
stream-library internal marker, and which matches the configured target
source neither by resolved path nor by basename, is never classified as user
code, even if its filename carries a recognized native-source extension. -/
theorem C5_filter_amended (cfg : TracerConfig) (fr : FrameData) (fp : String)
    (hfp : fr.filename = some fp)
    (h1 : cfg.user_source_file = ("") ∨
      cfg.resolvePath fr.directory fp ≠ cfg.user_source_file)
    (h2 : ∀ b, cfg.user_source_basename = some b → fp ≠ b)
    (h3 : strContains (strLower fp) ("iostream") = true ∨
      strContains (strLower fp) ("ostream") = true ∨
      strContains (strLower fp) ("istream") = true ∨
      strContains (strLower fp) ("streambuf") = true) :
    is_user_code cfg fr = false := by
  have hpat : system_patterns.any (fun pat => strContains (strLower fp) pat)
      = true := by
    rcases h3 with h | h | h | h <;>
      exact List.any_eq_true.mpr ⟨_, by decide, h⟩
  have hne : fp ≠ ("") := by
    intro hfp0
    rw [hfp0] at h3
    rcases h3 with h | h | h | h <;> exact absurd h (by decide)
  have hs1 : ¬(cfg.user_source_file ≠ ("") ∧
      cfg.resolvePath fr.directory fp = cfg.user_source_file) := by
    rintro ⟨ha, hb⟩
    rcases h1 with h | h
    · exact ha h
    · exact h hb
  have hs2 : (match cfg.user_source_basename with
      | some b => decide (fp = b)
      | none => false) = false := by
    rcases hb : cfg.user_source_basename with _ | b
    · rfl
    · simpa using fun hfb => h2 b hb hfb
  unfold is_user_code
  cases fr.valid
  · rfl
  · cases fr.lineEntryValid
    · rfl
    · cases fr.fileSpecValid
      · rfl
      · rw [hfp]
        simp only [Bool.not_true, Bool.false_eq_true, if_false]
        rw [if_neg hne, if_neg hs1]
        rw [hs2]
        simp only [Bool.false_eq_true, if_false]
        rw [if_pos hpat]

/-- C5 witness: a frame named `my_iostream.cpp` — a native-source extension
with the marker inside the basename — is rejected by the filter. -/
theorem C5_filter_amended_w :
    frIoFile.filename = some ("my_iostream.cpp") ∧
    strContains (strLower ("my_iostream.cpp")) ("iostream") = true ∧
    is_user_code cfgU frIoFile = false :=
  ⟨rfl, by decide,
    C5_filter_amended cfgU frIoFile ("my_iostream.cpp") rfl (Or.inl rfl)
      (fun _ hb => Option.noConfusion hb) (Or.inl (by decide))⟩

/- ## Claim C6 -/

/-- C6 counterexample: a user-code frame whose signature equals the stored
last signature makes `should_record_step` return false, yet `foundUserCode`
is raised from false to true — the flag is set before the signature
comparison, so a false return does not leave the session state unchanged. -/
theorem C6_found_flag_cex :
    is_user_code cfgU frMain = true ∧
    (should_record_step cfgU dSig frMain).1 = false ∧
    dSig.found_user_code = false ∧
    (should_record_step cfgU dSig frMain).2.found_user_code = true := by decide

/-- C6 (amended): `should_record_step` leaves the state unchanged when the
frame is not user code or its thread is invalid; for a user-code frame with
a valid thread it sets `foundUserCode := true` even when it returns false
because the signature is unchanged; and it updates `lastSignature` exactly
on true returns. -/
theorem C6_side_effects_amended (cfg : TracerConfig) (st : DedupState)
    (fr : FrameData) :
    (is_user_code cfg fr = false → should_record_step cfg st fr = (false, st)) ∧
    (is_user_code cfg fr = true → fr.threadValid = false →
      should_record_step cfg st fr = (false, st)) ∧
    (is_user_code cfg fr = true → fr.threadValid = true →
      (should_record_step cfg st fr).2.found_user_code = true) ∧
    ((should_record_step cfg st fr).1 = false →
      (should_record_step cfg st fr).2.last_frame_signature =
        st.last_frame_signature) ∧
    ((should_record_step cfg st fr).1 = true →
      (should_record_step cfg st fr).2.last_frame_signature =
        some (frameSigOf fr)) := by
  refine ⟨fun h => should_record_not_user cfg st fr h,
    fun hu ht => ?_,
    fun hu ht => should_record_found cfg st fr hu ht,
    fun h => should_record_snd_false cfg st fr h,
    fun h => (should_record_snd_true cfg st fr h).1⟩
  simp [should_record_step, hu, ht]

/-- C6 witness: the amended side-effect law applied at the concrete
duplicate-signature frame: the call returns false, keeps the stored
signature, and still marks user code as found. -/
theorem C6_side_effects_amended_w :
    is_user_code cfgU frMain = true ∧ frMain.threadValid = true ∧
    (should_record_step cfgU dSig frMain).1 = false ∧
    (should_record_step cfgU dSig frMain).2.found_user_code = true ∧
    (should_record_step cfgU dSig frMain).2.last_frame_signature =
      dSig.last_frame_signature :=
  ⟨by decide, by decide, by decide,
    (C6_side_effects_amended cfgU dSig frMain).2.2.1 (by decide) (by decide),
    (C6_side_effects_amended cfgU dSig frMain).2.2.2.1 (by decide)⟩

/- ## Claim C7 -/

/-- C7: value coercion is total over the embedding and follows the declared
type name: a `none` textual value maps to null; a type containing `int`
attempts the integer parse; otherwise `float`/`double` the float parse;
otherwise `bool` maps case-insensitively via equality with `true`; otherwise
a double-quote-wrapped value has the quotes stripped; and every parse
failure returns the raw textual value unchanged. -/
theorem C7_coercion (p : PyParse) (v : SBValue) :
    (v.valueStr = none → get_variable_value p v = .pynull) ∧
    (∀ s, v.valueStr = some s →
      ((strContains (strLower v.typeName) ("int") = true →
        (∀ n, p.intParse s = some n → get_variable_value p v = .pyint n) ∧
        (p.intParse s = none → get_variable_value p v = .pystr s)) ∧
      (strContains (strLower v.typeName) ("int") = false →
        (strContains (strLower v.typeName) ("float") = true ∨
          strContains (strLower v.typeName) ("double") = true) →
        (∀ d, p.floatParse s = some d → get_variable_value p v = .pyfloat d) ∧
        (p.floatParse s = none → get_variable_value p v = .pystr s)) ∧
      (strContains (strLower v.typeName) ("int") = false →
        strContains (strLower v.typeName) ("float") = false →
        strContains (strLower v.typeName) ("double") = false →
        strContains (strLower v.typeName) ("bool") = true →
        get_variable_value p v = .pybool (strLower s == ("true"))) ∧
      (strContains (strLower v.typeName) ("int") = false →
        strContains (strLower v.typeName) ("float") = false →
        strContains (strLower v.typeName) ("double") = false →
        strContains (strLower v.typeName) ("bool") = false →
        ((quoted s = true → get_variable_value p v = .pystr (pySlice1m1 s)) ∧
          (quoted s = false → get_variable_value p v = .pystr s))))) := by
  constructor
  · intro h
    simp [get_variable_value, h]
  · intro s hs
    refine ⟨?_, ?_, ?_, ?_⟩
    · intro hint
      constructor
      · intro n hn
        simp [get_variable_value, hs, hint, hn]
      · intro hn
        simp [get_variable_value, hs, hint, hn]
    · intro hint hfd
      constructor
      · intro d hd
        rcases hfd with hf | hf <;>
          simp [get_variable_value, hs, hint, hf, hd]
      · intro hd
        rcases hfd with hf | hf <;>
          simp [get_variable_value, hs, hint, hf, hd]
    · intro hint hfl hdb hbo
      simp [get_variable_value, hs, hint, hfl, hdb, hbo]
    · intro hint hfl hdb hbo
      constructor
      · intro hq
        simp [get_variable_value, hs, hint, hfl, hdb, hbo, hq]
      · intro hq
        simp [get_variable_value, hs, hint, hfl, hdb, hbo, hq]

/-- C7 witness: the integer branch applied where the parse fails — the
variable of type `int` with textual value `garbage` degrades to the raw
text. -/
theorem C7_coercion_w :
    vBadInt.valueStr = some ("garbage") ∧
    strContains (strLower vBadInt.typeName) ("int") = true ∧
    pFix.intParse ("garbage") = none ∧
    get_variable_value pFix vBadInt = .pystr ("garbage") :=
  ⟨rfl, by decide, by decide,
    (((C7_coercion pFix vBadInt).2 ("garbage") rfl).1 (by decide)).2 (by decide)⟩

/- ## Claim C8 -/

/-- C8: a variable reaching the array classification — not class/struct, no
pointer marker, and a bracketed type name or array-typed handle — gets a
`value` holding exactly `min N 100` element entries for `N` backing
elements; the bound is the literal 100. -/
theorem C8_array_cap (p : PyParse) (v : SBValue)
    (h1 : v.typeClass = .otherType)
    (h2 : strContains v.typeName ("*") = false)
    (h3 : strContains v.typeName ("[") = true ∨ v.isArray = true) :
    (get_variable_info p v).primitive = some ("array") ∧
    (get_variable_info p v).value =
      .elems ((v.children.take 100).map (get_variable_value p)) ∧
    ∀ ms, (get_variable_info p v).value = .elems ms →
      ms.length = min v.children.length 100 := by
  have hcond : ¬(v.typeClass = .classType ∨ v.typeClass = .structType) := by
    rw [h1]
    rintro (h | h) <;> cases h
  have harr : (strContains v.typeName ("[") || v.isArray) = true := by
    rcases h3 with h | h <;> simp [h]
  refine ⟨?_, ?_, ?_⟩
  · simp [get_variable_info, hcond, h2, harr]
  · simp [get_variable_info, hcond, h2, harr]
  · intro ms hms
    simp only [get_variable_info, hcond, if_false, h2, Bool.false_eq_true,
      harr, if_true] at hms
    cases hms
    simp [List.length_take, Nat.min_comm]

set_option maxRecDepth 4000 in
/-- C8 witness: the concrete array variable backed by 250 logical elements
yields a snapshot value of exactly 100 element entries. -/
theorem C8_array_cap_w :
    vArr.children.length = 250 ∧
    (get_variable_info pFix vArr).primitive = some ("array") ∧
    (∀ ms, (get_variable_info pFix vArr).value = .elems ms →
      ms.length = 100) := by
  have h := C8_array_cap pFix vArr rfl (by decide) (Or.inl (by decide))
  refine ⟨by decide, h.1, fun ms hms => ?_⟩
  rw [h.2.2 ms hms]
  decide

/- ## Claim C9 -/

/-- C9: with no new variable and no changed variable, a function name
containing the scope separator is split into class and member qualifiers: a
member equal to the class qualifier yields `object_creation` carrying the
class name and no variable field; otherwise a member prefixed with the
destructor marker yields `object_destruction`; anything else — including
names without the separator — yields `line_execution`. -/
theorem C9_ctor_dtor (fi : FrameInfo) (prev : List (String × VarInfo))
    (h1 : firstNew fi.locals prev = none)
    (h2 : firstChanged fi.locals prev = none) :
    (strContains fi.function ("::") = false →
      detect_step_type fi prev = lineExec) ∧
    (strContains fi.function ("::") = true →
      2 ≤ (pySplit fi.function ("::")).length →
      ((ctorMethodName fi.function = ctorClassName fi.function →
        detect_step_type fi prev =
          { type := ("object_creation"),
            className := some (ctorClassName fi.function),
            objectName := none, varField := none }) ∧
      (ctorMethodName fi.function ≠ ctorClassName fi.function →
        (ctorMethodName fi.function).toList.head? = some ('~') →
        detect_step_type fi prev =
          { type := ("object_destruction"),
            className := some (ctorClassName fi.function),
            objectName := none, varField := none }) ∧
      (ctorMethodName fi.function ≠ ctorClassName fi.function →
        (ctorMethodName fi.function).toList.head? ≠ some ('~') →
        detect_step_type fi prev = lineExec))) := by
  have hd : detect_step_type fi prev = ctorDtorInfo fi.function := by
    unfold detect_step_type
    rw [h1, h2]
  constructor
  · intro hc
    rw [hd]
    unfold ctorDtorInfo
    rw [hc]
    simp
  · intro hc hlen
    rw [hd]
    unfold ctorDtorInfo
    rw [hc]
    simp only [if_true]
    rw [if_pos hlen]
    refine ⟨fun he => ?_, fun hne hh => ?_, fun hne hh => ?_⟩
    · rw [if_pos he]
    · rw [if_neg hne, if_pos hh]
    · rw [if_neg hne, if_neg hh]

/-- C9 witness: the inference applied at a concrete constructor frame
`Foo::Foo` and a concrete destructor frame `Foo::~Foo`, both with empty
locals. -/
theorem C9_ctor_dtor_w :
    strContains fiCtor.function ("::") = true ∧
    2 ≤ (pySplit fiCtor.function ("::")).length ∧
    detect_step_type fiCtor [] =
      { type := ("object_creation"), className := some ("Foo"),
        objectName := none, varField := none } ∧
    detect_step_type fiDtor [] =
      { type := ("object_destruction"), className := some ("Foo"),
        objectName := none, varField := none } := by
  refine ⟨by decide, by decide, ?_, ?_⟩
  · exact ((C9_ctor_dtor fiCtor [] (by decide) (by decide)).2 (by decide)
      (by decide)).1 (by decide)
  · exact (((C9_ctor_dtor fiDtor [] (by decide) (by decide)).2 (by decide)
      (by decide)).2.1 (by decide) (by decide))

/- ## Claim C10 -/

/-- C10: the emitted document's `totalSteps` field equals the length of its
`steps` array, for every session that reaches output emission, including
zero-length traces. -/
theorem C10_total_steps (cfg : TracerConfig) (p : PyParse) (m : Nat)
    (obss : List Obs) (doc : OutputDoc)
    (h : runMain cfg p m obss = some doc) :
    doc.totalSteps = doc.steps.length := by
  unfold runMain at h
  cases hg : generate_trace cfg p m obss with
  | none => rw [hg] at h; cases h
  | some tr =>
    rw [hg] at h
    cases h
    rfl

/-- C10 witness: the law applied at a concrete session producing the empty
trace — the emitted document has zero steps and `totalSteps = 0`. -/
theorem C10_total_steps_w :
    runMain cfgU pFix 10 [obsEnd] = some (emitDoc []) ∧
    (emitDoc []).steps.length = 0 ∧
    (emitDoc []).totalSteps = (emitDoc []).steps.length :=
  ⟨by decide, rfl,
    C10_total_steps cfgU pFix 10 [obsEnd] (emitDoc []) (by decide)⟩

end Tracer
